import Mathlib

/-!
Verification of the gemini-search-agent repository against its specification.

The development shallowly embeds the relevant Python code:

* `src/gemini_search_agent/tools/ddg_search.py`
  (`DDGSearchCache`, `DDGSearch.search_with_contents`,
  `DDGSearch._get_website_contents`, the `_async` variants), and
* `src/gemini_search_agent/gemini_agent.py` /
  `src/gemini_search_agent/new_gemini_agent.py`
  (tool dispatch, rate-limit retry logic).

Python dictionaries are modelled as insertion-ordered association lists,
Python exceptions as an `Except PyErr` result, timestamps as natural
numbers handed to each operation (the code reads `time.time()` at the
corresponding points), and network or provider behaviour as an explicit
script of outcomes consumed one per attempt.
-/

set_option autoImplicit false

namespace GSA

/-- Python exceptions that the embedded code can raise. -/
inductive PyErr where
  | keyError (k : String)
  | indexError
  | typeError (msg : String)
  | valueError (msg : String)
  deriving Repr, DecidableEq

/-! ### Python dict primitives (insertion-ordered association lists) -/

/-- `d.get(k)` : first binding for `k`, if any. -/
def dget (d : List (String × String)) (k : String) : Option String :=
  match d with
  | [] => none
  | (k1, v1) :: rest => if k1 = k then some v1 else dget rest k

/-- `d[k] = v` : replace the binding in place if the key exists, else append
(CPython dicts preserve the original slot of an updated key). -/
def dset (d : List (String × String)) (k v : String) : List (String × String) :=
  match d with
  | [] => [(k, v)]
  | (k1, v1) :: rest => if k1 = k then (k1, v) :: rest else (k1, v1) :: dset rest k v

/-- `del d[k]` : raises `KeyError` when the key is absent. -/
def ddel (d : List (String × String)) (k : String) : Except PyErr (List (String × String)) :=
  match d with
  | [] => .error (.keyError k)
  | (k1, v1) :: rest =>
    if k1 = k then .ok rest
    else match ddel rest k with
      | .error e => .error e
      | .ok rest1 => .ok ((k1, v1) :: rest1)

/-- `k in d`. -/
def dmem (d : List (String × String)) (k : String) : Bool :=
  match d with
  | [] => false
  | (k1, _) :: rest => k1 = k || dmem rest k

/-! ### DDGSearchCache (tools/ddg_search.py lines 22-92) -/

/-- State of a `DDGSearchCache` object: `data` is the backing dict,
`metadata` the list of `(key, create-time)` pairs appended by `add`. -/
structure DDGSearchCache where
  data : List (String × String)
  metadata : List (String × Nat)
  max_size : Int
  max_age : Int
  gc_timing : Int
  num_of_calling : Nat
  deriving Repr, DecidableEq

/-- `DDGSearchCache()` with the constructor defaults
`max_size=50, max_age=-1, gc_timing=10`. -/
def DDGSearchCache.default : DDGSearchCache :=
  { data := [], metadata := [], max_size := 50, max_age := -1, gc_timing := 10,
    num_of_calling := 0 }

/-- Stable insertion of one `(key, time)` pair into a time-sorted list;
an element is placed before the first strictly later entry, matching the
stability of `list.sort(key=lambda x: x[1])`. -/
def insertByTime (p : String × Nat) : List (String × Nat) → List (String × Nat)
  | [] => [p]
  | q :: rest => if p.2 < q.2 then p :: q :: rest else q :: insertByTime p rest

/-- `self.metadata.sort(key=lambda x: x[1])` as a stable insertion sort. -/
def sortByTime : List (String × Nat) → List (String × Nat)
  | [] => []
  | p :: rest => insertByTime p (sortByTime rest)

/-- The size-eviction loop of `remove_expired`:
`while len(self.data) > self.max_size: key, _ = self.metadata.pop(0); del self.data[key]`.
`metadata.pop(0)` on an empty list raises `IndexError`; `del` can raise
`KeyError`. -/
def evictBySize (max_size : Int) :
    List (String × String) → List (String × Nat) →
    Except PyErr (List (String × String) × List (String × Nat))
  | d, md =>
    if (d.length : Int) ≤ max_size then .ok (d, md)
    else match md with
      | [] => .error .indexError
      | (k, _) :: rest =>
        match ddel d k with
        | .error e => .error e
        | .ok d1 => evictBySize max_size d1 rest

/-- The age-eviction loop of `remove_expired`, operating on the REVERSE of
the (ascending-sorted) metadata list, so the head is `metadata[-1]`:
`while self.metadata and time.time() - self.metadata[-1][1] > self.max_age:
key, _ = self.metadata.pop(); del self.data[key]`. -/
def evictByAgeRev (now : Nat) (max_age : Int) :
    List (String × String) → List (String × Nat) →
    Except PyErr (List (String × String) × List (String × Nat))
  | d, [] => .ok (d, [])
  | d, (k, t) :: rest =>
    if (now : Int) - (t : Int) > max_age then
      match ddel d k with
      | .error e => .error e
      | .ok d1 => evictByAgeRev now max_age d1 rest
    else .ok (d, (k, t) :: rest)

/-- `DDGSearchCache.remove_expired` (lines 55-65): sort metadata by creation
time ascending, evict oldest-first while over `max_size` (when
`max_size >= 0`), then pop from the tail of the metadata list while the
tail entry is older than `max_age` (when `max_age >= 0`). -/
def removeExpired (now : Nat) (c : DDGSearchCache) : Except PyErr DDGSearchCache :=
  let md := sortByTime c.metadata
  match (if c.max_size ≥ 0 then evictBySize c.max_size c.data md else .ok (c.data, md)) with
  | .error e => .error e
  | .ok (d, md1) =>
    if c.max_age ≥ 0 then
      match evictByAgeRev now c.max_age d md1.reverse with
      | .error e => .error e
      | .ok (d2, mdRev) => .ok { c with data := d2, metadata := mdRev.reverse }
    else .ok { c with data := d, metadata := md1 }

/-- `self.gc_timing <= 0 or self.num_of_calling % self.gc_timing == 0`
(evaluated after the increment of `num_of_calling`). -/
def gcDue (c : DDGSearchCache) : Bool :=
  c.gc_timing ≤ 0 || c.num_of_calling % c.gc_timing.toNat == 0

/-- `DDGSearchCache.add` (lines 31-36). -/
def cacheAdd (now : Nat) (k v : String) (c : DDGSearchCache) : Except PyErr DDGSearchCache :=
  let c1 : DDGSearchCache :=
    { c with num_of_calling := c.num_of_calling + 1,
             data := dset c.data k v,
             metadata := c.metadata ++ [(k, now)] }
  if gcDue c1 then removeExpired now c1 else .ok c1

/-- `DDGSearchCache.get` (lines 38-42): increment the counter, possibly run
an eviction pass, then `self.data.get(key, default)`. -/
def cacheGet (now : Nat) (k : String) (dflt : Option String) (c : DDGSearchCache) :
    Except PyErr (Option String × DDGSearchCache) :=
  let c1 : DDGSearchCache := { c with num_of_calling := c.num_of_calling + 1 }
  match (if gcDue c1 then removeExpired now c1 else .ok c1) with
  | .error e => .error e
  | .ok c2 => .ok ((dget c2.data k).orElse (fun _ => dflt), c2)

/-- `DDGSearchCache.remove` (lines 44-48): note that the key is deleted from
`data` but its `metadata` entry is left behind. -/
def cacheRemove (now : Nat) (k : String) (c : DDGSearchCache) : Except PyErr DDGSearchCache :=
  let c1 : DDGSearchCache := { c with num_of_calling := c.num_of_calling + 1 }
  match ddel c1.data k with
  | .error e => .error e
  | .ok d1 =>
    let c2 : DDGSearchCache := { c1 with data := d1 }
    if gcDue c2 then removeExpired now c2 else .ok c2

/-- `DDGSearchCache.clear` (lines 50-53). -/
def cacheClear (c : DDGSearchCache) : DDGSearchCache :=
  { c with num_of_calling := 0, data := [], metadata := [] }

/-- `key in cache` via `__contains__` (no counter increment, no eviction). -/
def cacheContains (k : String) (c : DDGSearchCache) : Bool :=
  dmem c.data k

/-- `len(cache)` via `__len__`. -/
def cacheLen (c : DDGSearchCache) : Nat :=
  c.data.length

/-- Python truthiness of the `self.cache` attribute: `None` is falsy, and a
`DDGSearchCache` object defines `__len__` but not `__bool__`, so an EMPTY
cache is falsy as well. -/
def cacheTruthy : Option DDGSearchCache → Bool
  | none => false
  | some c => c.data.length != 0

/-! ### Page fetcher (`_get_website_contents`, sync lines 262-311 and
async lines 377-426)

One HTTP attempt (`client.get` + `raise_for_status` + `.text` + clean) is
modelled by an outcome supplied by a script `net : Nat → HttpOutcome`
indexed by the number of GETs issued so far.  `_clean_html` never raises
(it catches internally and falls back to the raw HTML), so cleaning is an
arbitrary function `clean : String → String`; a falsy cleaned value is
modelled by the empty string. -/

inductive HttpOutcome where
  | body (html : String)
  | statusErr (msg : String)
  | exc (ename emsg : String)
  deriving Repr, DecidableEq

/-- Result of one `_get_website_contents` call: the returned string, the
number of `client.get` calls issued, the number of `time.sleep` /
`asyncio.sleep` calls executed, and the cache object afterwards. -/
structure FetchOut where
  ret : String
  attempts : Nat
  sleeps : Nat
  cache : Option DDGSearchCache
  deriving Repr, DecidableEq

/-- Internal loop state: `website_contents` (None until first assigned),
the cache attribute, GETs issued, sleeps executed, and the pending early
`return` value when a non-HTTPStatusError exception was caught. -/
structure FetchSt where
  wc : Option String
  cache : Option DDGSearchCache
  att : Nat
  slp : Nat
  early : Option String
  deriving Repr, DecidableEq

/-- `"Failed to get website contents, reason: No url was provided."` -/
def noUrlErr : String :=
  "Failed to get website contents, reason: No url was provided."

/-- The error string produced when the retry loop ends without non-empty
contents (identical text in the sync and async sources). -/
def emptyContentsErr (url : String) (retries : Nat) : String :=
  "Failed to get website contents, reason: Empty contents was provided from "
    ++ url ++ " after " ++ toString retries ++ " retries."

/-- The early-return string for a caught generic exception
(`f"Failed to get website contents, reason: {e.__class__.__name__} {e}"`). -/
def fetchExcErr (ename emsg : String) : String :=
  "Failed to get website contents, reason: " ++ ename ++ " " ++ emsg

/-- The `for _ in range(self.retries)` loop of the synchronous
`_get_website_contents`: on a body, clean it; empty cleaned contents sleep
and retry; `HTTPStatusError` sleeps and retries; any other exception
returns the error string at once; otherwise store into the cache if it is
truthy and break. -/
def fetchLoopSync (clean : String → String) (now : Nat) (url : String)
    (net : Nat → HttpOutcome) : Nat → FetchSt → Except PyErr FetchSt
  | 0, st => .ok st
  | r + 1, st =>
    match net st.att with
    | .body html =>
      let wc := clean html
      if wc = "" then
        fetchLoopSync clean now url net r
          { st with wc := some wc, att := st.att + 1, slp := st.slp + 1 }
      else
        match ((match st.cache with
               | some c =>
                 if c.data.length != 0 then
                   match cacheAdd now url wc c with
                   | .error e => .error e
                   | .ok c1 => .ok (some c1)
                 else .ok (some c)
               | none => .ok none) : Except PyErr (Option DDGSearchCache)) with
        | .error e => .error e
        | .ok cache1 =>
          .ok { st with wc := some wc, att := st.att + 1, cache := cache1 }
    | .statusErr _ =>
      fetchLoopSync clean now url net r { st with att := st.att + 1, slp := st.slp + 1 }
    | .exc en em =>
      .ok { st with att := st.att + 1, early := some (fetchExcErr en em) }

/-- Trailing `if website_contents: return website_contents else: return
<empty-contents error>` of the synchronous variant. -/
def finalizeSync (retries : Nat) (url : String) : Option String → String
  | some s => if s = "" then emptyContentsErr url retries else s
  | none => emptyContentsErr url retries

/-- The network branch of the synchronous `_get_website_contents`,
taken when `self.cache` is falsy. -/
def fetchBranchSync (retries : Nat) (clean : String → String) (now : Nat)
    (cache : Option DDGSearchCache) (url : String) (net : Nat → HttpOutcome) :
    Except PyErr FetchOut :=
  match fetchLoopSync clean now url net retries
      { wc := none, cache := cache, att := 0, slp := 0, early := none } with
  | .error e => .error e
  | .ok st =>
    match st.early with
    | some s => .ok { ret := s, attempts := st.att, sleeps := st.slp, cache := st.cache }
    | none =>
      .ok { ret := finalizeSync retries url st.wc, attempts := st.att,
            sleeps := st.slp, cache := st.cache }

/-- `DDGSearch._get_website_contents` (lines 262-311): empty URL short
circuit; if `self.cache` is truthy, a single `cache.get` decides the
result with no network call; otherwise the retry loop runs. -/
def getWebsiteContents (retries : Nat) (clean : String → String) (now : Nat)
    (cache : Option DDGSearchCache) (url : String) (net : Nat → HttpOutcome) :
    Except PyErr FetchOut :=
  if url = "" then
    .ok { ret := noUrlErr, attempts := 0, sleeps := 0, cache := cache }
  else
    match cache with
    | some c =>
      if c.data.length != 0 then
        match cacheGet now url none c with
        | .error e => .error e
        | .ok (wc, c1) =>
          .ok { ret := finalizeSync retries url wc, attempts := 0, sleeps := 0,
                cache := some c1 }
      else fetchBranchSync retries clean now (some c) url net
    | none => fetchBranchSync retries clean now none url net

/-- The retry loop of `_get_website_contents_async` (lines 396-419),
transcribed from the asynchronous source; `await asyncio.sleep` plays the
role `time.sleep` plays in the synchronous variant. -/
def fetchLoopAsync (clean : String → String) (now : Nat) (url : String)
    (net : Nat → HttpOutcome) : Nat → FetchSt → Except PyErr FetchSt
  | 0, st => .ok st
  | r + 1, st =>
    match net st.att with
    | .body html =>
      let wc := clean html
      if wc = "" then
        fetchLoopAsync clean now url net r
          { st with wc := some wc, att := st.att + 1, slp := st.slp + 1 }
      else
        match ((match st.cache with
               | some c =>
                 if c.data.length != 0 then
                   match cacheAdd now url wc c with
                   | .error e => .error e
                   | .ok c1 => .ok (some c1)
                 else .ok (some c)
               | none => .ok none) : Except PyErr (Option DDGSearchCache)) with
        | .error e => .error e
        | .ok cache1 =>
          .ok { st with wc := some wc, att := st.att + 1, cache := cache1 }
    | .statusErr _ =>
      fetchLoopAsync clean now url net r { st with att := st.att + 1, slp := st.slp + 1 }
    | .exc en em =>
      .ok { st with att := st.att + 1, early := some (fetchExcErr en em) }

/-- Trailing contents check of the asynchronous variant (lines 420-426). -/
def finalizeAsync (retries : Nat) (url : String) : Option String → String
  | some s => if s = "" then emptyContentsErr url retries else s
  | none => emptyContentsErr url retries

/-- The network branch of `_get_website_contents_async`. -/
def fetchBranchAsync (retries : Nat) (clean : String → String) (now : Nat)
    (cache : Option DDGSearchCache) (url : String) (net : Nat → HttpOutcome) :
    Except PyErr FetchOut :=
  match fetchLoopAsync clean now url net retries
      { wc := none, cache := cache, att := 0, slp := 0, early := none } with
  | .error e => .error e
  | .ok st =>
    match st.early with
    | some s => .ok { ret := s, attempts := st.att, sleeps := st.slp, cache := st.cache }
    | none =>
      .ok { ret := finalizeAsync retries url st.wc, attempts := st.att,
            sleeps := st.slp, cache := st.cache }

/-- `DDGSearch._get_website_contents_async` (lines 377-426). -/
def getWebsiteContentsAsync (retries : Nat) (clean : String → String) (now : Nat)
    (cache : Option DDGSearchCache) (url : String) (net : Nat → HttpOutcome) :
    Except PyErr FetchOut :=
  if url = "" then
    .ok { ret := noUrlErr, attempts := 0, sleeps := 0, cache := cache }
  else
    match cache with
    | some c =>
      if c.data.length != 0 then
        match cacheGet now url none c with
        | .error e => .error e
        | .ok (wc, c1) =>
          .ok { ret := finalizeAsync retries url wc, attempts := 0, sleeps := 0,
                cache := some c1 }
      else fetchBranchAsync retries clean now (some c) url net
    | none => fetchBranchAsync retries clean now none url net

/-! ### Search client (`search_with_contents`, lines 203-260, and the
asynchronous write-back, lines 363-375)

The DDGS provider is a script `Nat → ProviderOutcome` indexed by the
attempt number; a search result record is an insertion-ordered dict. -/

/-- A DDGS result record (`href`, `title`, ..., later `contents`). -/
abbrev Rdict := List (String × String)

/-- Outcome of one `ddgs.text(...)` call: a result list (possibly empty),
a `RatelimitException`, or another `DDGSException`. -/
inductive ProviderOutcome where
  | res (rs : List Rdict)
  | rate
  | err (ename emsg : String)

/-- Python slice `rs[:n]` for an `int` bound `n` (negative bounds count
from the end, clamped at zero). -/
def pySliceTo (n : Int) (rs : List Rdict) : List Rdict :=
  if 0 ≤ n then rs.take n.toNat else rs.take (rs.length - (-n).toNat)

/-- The truncation branch (lines 236-237):
`if self.num_results and len(search_results) > self.num_results:
search_results = search_results[: self.num_results]`.
`self.num_results` is `Union[int, None]`; `None` and `0` are falsy. -/
def truncateResults (num_results : Option Int) (rs : List Rdict) : List Rdict :=
  match num_results with
  | none => rs
  | some n => if n ≠ 0 ∧ (rs.length : Int) > n then pySliceTo n rs else rs

/-- `f"Failed to get search results, reason: {e.__class__.__name__} {e}"`. -/
def searchExcErr (ename emsg : String) : String :=
  "Failed to get search results, reason: " ++ ename ++ " " ++ emsg

/-- The error string returned when the retry loop never produced a
non-empty result list. -/
def emptySearchErr (retries : Nat) : String :=
  "Failed to get search results, reason: Empty search results was provided from DuckDuckGo after "
    ++ toString retries ++ " retries."

/-- Result of the provider retry loop: the pending early `return` string
for a `DDGSException`, the value of `search_results` on exit, the number
of provider calls, and the number of sleeps. -/
structure SearchLoopOut where
  early : Option String
  results : List Rdict
  attempts : Nat
  sleeps : Nat

/-- The `for _ in range(self.retries)` loop of `search_with_contents`
(lines 221-247): an empty result list sleeps and retries (note that the
assignment to `search_results` has already happened), a
`RatelimitException` sleeps and retries (`search_results` keeps its prior
value), any other `DDGSException` returns an error string at once, and a
non-empty list is truncated and breaks the loop. -/
def searchLoop (num_results : Option Int) (script : Nat → ProviderOutcome) :
    Nat → Nat → List Rdict → Nat → SearchLoopOut
  | 0, i, cur, slp => { early := none, results := cur, attempts := i, sleeps := slp }
  | r + 1, i, cur, slp =>
    match script i with
    | .res rs =>
      if rs.isEmpty then searchLoop num_results script r (i + 1) rs (slp + 1)
      else { early := none, results := truncateResults num_results rs,
             attempts := i + 1, sleeps := slp }
    | .rate => searchLoop num_results script r (i + 1) cur (slp + 1)
    | .err en em =>
      { early := some (searchExcErr en em), results := cur, attempts := i + 1, sleeps := slp }

/-- `(not self.filter_func) or ("contents" in result)`: which results get
their contents fetched (lines 255-258 and 365-369). -/
def eligibleResult (hasFilter : Bool) (r : Rdict) : Bool :=
  !hasFilter || dmem r "contents"

/-- The sequential contents-attachment loop of `search_with_contents`
(lines 255-258): each eligible record receives
`result["contents"] = self._get_website_contents(client, result.get("href", ""))`;
the fetcher call is abstracted by `fetch`. -/
def attachContents (hasFilter : Bool) (fetch : String → String) (rs : List Rdict) :
    List Rdict :=
  rs.map (fun r =>
    if eligibleResult hasFilter r then dset r "contents" (fetch ((dget r "href").getD ""))
    else r)

/-- `DDGSearch.search_with_contents` (lines 203-260): the provider retry
loop, the empty-results error, the optional filter, and the sequential
contents attachment.  Returns the function result together with the
number of provider calls and sleeps. -/
def searchWithContents (retries : Nat) (num_results : Option Int)
    (filter_func : Option (List Rdict → List Rdict)) (fetch : String → String)
    (script : Nat → ProviderOutcome) :
    Except String (List Rdict) × Nat × Nat :=
  let out := searchLoop num_results script retries 0 [] 0
  match out.early with
  | some e => (.error e, out.attempts, out.sleeps)
  | none =>
    if out.results.isEmpty then (.error (emptySearchErr retries), out.attempts, out.sleeps)
    else
      let filtered := match filter_func with
        | some f => f out.results
        | none => out.results
      (.ok (attachContents filter_func.isSome fetch filtered), out.attempts, out.sleeps)

/-- Python `enumerate(xs, start=i)`. -/
def enumFrom {α : Type} (i : Nat) : List α → List (Nat × α)
  | [] => []
  | a :: as => (i, a) :: enumFrom (i + 1) as

/-- `urls = [(i, result.get("href", "")) for i, result in
enumerate(search_results) if (not self.filter_func) or
("contents" in result)]` (lines 365-369). -/
def urlsOf (hasFilter : Bool) (rs : List Rdict) : List (Nat × String) :=
  ((enumFrom 0 rs).filter (fun p => eligibleResult hasFilter p.2)).map
    (fun p => (p.1, (dget p.2 "href").getD ""))

/-- `for (i, _), contents in zip(urls, website_contents):
search_results[i]["contents"] = contents` (lines 372-373): successive
in-place writes at the recorded indices. -/
def writeback (rs : List Rdict) : List (Nat × String) → List Rdict
  | [] => rs
  | (i, c) :: rest => writeback (rs.set i (dset (rs.getD i []) "contents" c)) rest

/-- The concurrent fetch-and-rejoin tail of `search_with_contents_async`
(lines 363-375): collect `(index, url)` pairs for eligible records, fetch
each url (`asyncio.gather` keeps the task order, so the fetched list is
positionally aligned with `urls`), and write each result back into its
originating slot. -/
def attachContentsAsync (hasFilter : Bool) (fetch : String → String) (rs : List Rdict) :
    List Rdict :=
  writeback rs
    (((urlsOf hasFilter rs).zip ((urlsOf hasFilter rs).map fun p => fetch p.2)).map
      fun q => (q.1.1, q.2))

/-! ### Tool dispatch in the conversation agents
(`gemini_agent.GeminiAgent._call_tool_function_async`, lines 144-168, and
`new_gemini_agent.GeminiAgent._call_tool_function`, lines 84-108) -/

/-- A raised Python exception: class name and message. -/
structure PyExc where
  cls : String
  msg : String
  deriving Repr, DecidableEq

/-- A model-requested call (`types.FunctionCall`); in the genai type both
fields are optional.  Arguments are opaque: only their presence matters
below (`dict(None)` raises `TypeError`). -/
structure FunctionCall where
  name : Option String
  args : Option (List (String × String))

/-- `self.tool_functions`: tool name to the outcome of invoking that tool
with the model-supplied arguments (a result value or a raised exception). -/
abbrev ToolRegistry := List (String × Except PyExc String)

/-- Dict lookup in the registry. -/
def lookupTool (reg : ToolRegistry) (k : String) : Option (Except PyExc String) :=
  match reg with
  | [] => none
  | (k1, v) :: rest => if k1 = k then some v else lookupTool rest k

/-- `types.Part.from_function_response(name=..., response={...})` as built
by gemini_agent.py: the response is a one-key dict. -/
structure PartOld where
  name : String
  response : List (String × String)
  deriving Repr, DecidableEq

/-- `GeminiAgent._call_tool_function_async` of gemini_agent.py (144-168):
`function_name = function_call.name if function_call.name else ""`;
`function_args = dict(function_call.args) if function_call.args else {}`
(guarded, so a missing args field cannot raise); unknown names synthesize
an error response; a raising tool is caught and reported with
`{e.__class__.__name__} {e}`.  The function is total: no branch raises. -/
def callToolFunctionAsyncOld (reg : ToolRegistry) (fc : FunctionCall) : PartOld :=
  let fname := fc.name.getD ""
  match lookupTool reg fname with
  | none =>
    { name := fname,
      response := [("error", "Error: Tool '" ++ fname ++ "' is not supported.")] }
  | some (.ok result) => { name := fname, response := [("result", result)] }
  | some (.error e) =>
    { name := fname,
      response := [("error", "Error calling tool '" ++ fname ++ "' asynchronously: "
                      ++ e.cls ++ " " ++ e.msg)] }

/-- f-string rendering of an `Optional[str]` value. -/
def pyShowOptStr : Option String → String
  | none => "None"
  | some s => s

/-- `types.Part.from_tool_response(tool_name=..., response=...)` as built
by new_gemini_agent.py: the response is a plain string (or the tool
result, modelled as a string). -/
structure PartNew where
  toolName : Option String
  response : String
  deriving Repr, DecidableEq

/-- `GeminiAgent._call_tool_function` of new_gemini_agent.py (84-108):
`function_args = dict(function_call.args)` raises `TypeError` when `args`
is `None` (unguarded, before the try block); the name is used as-is; a
raising tool is caught and reported with `f"...: {e}"` - the message
only, without the exception class name. -/
def callToolFunctionNew (reg : ToolRegistry) (fc : FunctionCall) :
    Except PyErr PartNew :=
  match fc.args with
  | none => .error (.typeError "argument of type NoneType is not iterable")
  | some _ =>
    match fc.name with
    | none =>
      .ok { toolName := none,
            response := "Error: Tool '" ++ pyShowOptStr none ++ "' is not supported." }
    | some fname =>
      match lookupTool reg fname with
      | none =>
        .ok { toolName := some fname,
              response := "Error: Tool '" ++ fname ++ "' is not supported." }
      | some (.ok result) => .ok { toolName := some fname, response := result }
      | some (.error e) =>
        .ok { toolName := some fname,
              response := "Error calling tool '" ++ fname ++ "': " ++ e.msg }

/-- Contiguous-prefix test on character lists. -/
def leadsWith : List Char → List Char → Bool
  | [], _ => true
  | _ :: _, [] => false
  | a :: as, b :: bs => a == b && leadsWith as bs

/-- Contiguous-substring test on character lists. -/
def containsSeg (needle : List Char) : List Char → Bool
  | [] => leadsWith needle []
  | c :: t => leadsWith needle (c :: t) || containsSeg needle t

/-- Whether `needle` occurs contiguously in `hay`. -/
def strContainsSeg (needle hay : String) : Bool :=
  containsSeg needle.data hay.data

/-! ### Rate-limit delay handling
(`new_gemini_agent.GeminiAgent._extract_retry_delay`, lines 263-271, and
the except-clause of `gemini_agent.GeminiAgent.ainvoke`, lines 245-263) -/

/-- The character class of the regex escape for whitespace. -/
def isWsChar (c : Char) : Bool :=
  c == ' ' || c == '\t' || c == '\n' || c == '\r' || c == '\x0b' || c == '\x0c'

/-- Match a literal character sequence, returning the rest. -/
def dropLit : List Char → List Char → Option (List Char)
  | [], s => some s
  | _ :: _, [] => none
  | c :: cs, d :: ds => if c == d then dropLit cs ds else none

/-- Drop leading regex whitespace. -/
def skipWs : List Char → List Char
  | [] => []
  | c :: cs => if isWsChar c then skipWs cs else c :: cs

/-- Split a maximal leading run of decimal digits. -/
def takeDigits : List Char → List Char × List Char
  | [] => ([], [])
  | c :: cs =>
    if c.isDigit then
      let p := takeDigits cs
      (c :: p.1, p.2)
    else ([], c :: cs)

/-- Decimal value of a digit run. -/
def digitsToNat (ds : List Char) : Nat :=
  ds.foldl (fun acc c => acc * 10 + (c.toNat - 48)) 0

/-- The opening-brace character of the retry-delay pattern. -/
def lbraceChar : Char := Char.ofNat 123

/-- Try the pattern of `_extract_retry_delay` at the current position:
literal "retry_delay", optional whitespace, an opening brace, optional
whitespace, literal "seconds:", optional whitespace, then one or more
digits. -/
def matchRetryDelayAt (s : List Char) : Option Nat :=
  match dropLit ("retry_delay".data) s with
  | none => none
  | some s1 =>
    match skipWs s1 with
    | [] => none
    | c :: s3 =>
      if c == lbraceChar then
        match dropLit ("seconds:".data) (skipWs s3) with
        | none => none
        | some s5 =>
          let p := takeDigits (skipWs s5)
          if p.1.isEmpty then none else some (digitsToNat p.1)
      else none

/-- `re.search` semantics: the match at the leftmost position that
succeeds, scanning left to right. -/
def searchRetryDelay : List Char → Option Nat
  | [] => none
  | c :: cs =>
    match matchRetryDelayAt (c :: cs) with
    | some n => some n
    | none => searchRetryDelay cs

/-- `GeminiAgent._extract_retry_delay` of new_gemini_agent.py (263-271):
regex-extract the seconds, defaulting to the hardcoded 2. -/
def extractRetryDelay (s : String) : Nat :=
  (searchRetryDelay s.data).getD 2

/-- The sleep computation of new_gemini_agent.invoke / ainvoke on a
rate-limit error: the configured delay when positive, else the extracted
(or fallback) value. -/
def computeSleepNew (retry_delay : Int) (errStr : String) : Int :=
  if retry_delay > 0 then retry_delay else (extractRetryDelay errStr : Int)

/-- `s.replace("s", "")`. -/
def removeAllS (s : String) : String :=
  String.mk (s.data.filter (fun c => c != 's'))

/-- `float(s)` restricted to plain digit strings, the shape the provider
emits once the trailing "s" is stripped from values like "7s"; anything
else raises `ValueError`. -/
def pyFloatDigits (s : String) : Except PyErr Int :=
  if s ≠ "" ∧ s.data.all Char.isDigit then .ok (digitsToNat s.data : Int)
  else .error (.valueError s)

/-- The sleep computation of gemini_agent.ainvoke (lines 248-255) on an
HTTP-429 `ClientError`: the configured delay when positive, else
`[float(rd.replace("s", "")) for d in e.details["error"]["details"] if
(rd := d.get("retryDelay"))][0]`.  The argument is the list of
`d.get("retryDelay")` values of the error detail dicts; the walrus filter
keeps truthy (present, non-empty) values, every kept value is converted,
and indexing an empty comprehension raises `IndexError` - there is no
hardcoded fallback on this path. -/
def computeSleepOld (retry_delay : Int) (retryDelays : List (Option String)) :
    Except PyErr Int :=
  if retry_delay > 0 then .ok retry_delay
  else
    let rds := retryDelays.filterMap (fun d =>
      match d with
      | some s => if s = "" then none else some s
      | none => none)
    match rds.mapM (fun rd => pyFloatDigits (removeAllS rd)) with
    | .error e => .error e
    | .ok [] => .error .indexError
    | .ok (x :: _) => .ok x

/-! ### The retry loop of new_gemini_agent.invoke / ainvoke
(lines 110-172 and 200-261): the rate-limit excursion and the retry
budget.  A successful attempt is abstracted to its terminal text (the
in-turn tool-call round trip is modelled by the dispatchers above). -/

/-- Outcome of one `send_message` attempt. -/
inductive TurnOutcome where
  | done (text : String)
  | rateLimited (errStr : String)
  | apiError (msg : String)
  | otherExc (msg : String)

/-- Result of one turn: the returned text (the empty-string sentinel on
failure, message mode), the sleeps performed, and the number of loop
iterations run (the `finally` block increments the counter once per
iteration). -/
structure TurnResult where
  text : String
  sleeps : List Int
  attempts : Nat
  deriving Repr, DecidableEq

/-- The `while True` loop of new_gemini_agent.invoke / ainvoke: break once
`self.retries > 0 and retries > self.retries`; a rate-limit `APIError`
sleeps `computeSleepNew` and continues; any other `APIError` or exception
breaks; breaking returns the empty sentinel.  `fuel` bounds the unrolling
(the Python loop is unbounded when the budget is non-positive). -/
def invokeLoopNew (budget retry_delay : Int) (script : Nat → TurnOutcome) :
    Nat → Nat → List Int → Option TurnResult
  | 0, _, _ => none
  | f + 1, r, slps =>
    if budget > 0 ∧ (r : Int) > budget then
      some { text := "", sleeps := slps, attempts := r }
    else
      match script r with
      | .done t => some { text := t, sleeps := slps, attempts := r + 1 }
      | .rateLimited es =>
        invokeLoopNew budget retry_delay script f (r + 1)
          (slps ++ [computeSleepNew retry_delay es])
      | .apiError _ => some { text := "", sleeps := slps, attempts := r + 1 }
      | .otherExc _ => some { text := "", sleeps := slps, attempts := r + 1 }

/-- One `invoke` / `ainvoke` turn of new_gemini_agent, starting with a
zero retry counter and no sleeps. -/
def invokeNew (budget retry_delay : Int) (script : Nat → TurnOutcome) (fuel : Nat) :
    Option TurnResult :=
  invokeLoopNew budget retry_delay script fuel 0 []

/-! ### Default-argument aliasing (ddg_search.py line 114,
gemini_agent.py line 26, new_gemini_agent.py line 22)

Python evaluates a parameter default once, when the `def` statement is
executed; every later call that omits the argument receives the SAME
object.  The heap below makes that aliasing observable: a DDGSearch
instance stores a reference to a cache object, and the module holds the
single reference allocated when the class body was evaluated. -/

/-- A heap of cache objects; a reference is an index into `cells`. -/
structure CacheHeap where
  cells : List DDGSearchCache
  deriving Repr, DecidableEq

/-- Dereference. -/
def heapRead (h : CacheHeap) (ref : Nat) : Option DDGSearchCache :=
  h.cells.get? ref

/-- In-place update of the referenced object. -/
def heapWrite (h : CacheHeap) (ref : Nat) (c : DDGSearchCache) : CacheHeap :=
  ⟨h.cells.set ref c⟩

/-- Module state once `class DDGSearch` has been executed: the default
value `DDGSearchCache()` of the `cache` parameter was constructed exactly
once and lives at `defaultCacheRef`. -/
structure ModuleState where
  heap : CacheHeap
  defaultCacheRef : Nat
  deriving Repr, DecidableEq

/-- Module initialisation: evaluating the `def __init__(..., cache:
Union[DDGSearchCache, None] = DDGSearchCache(), ...)` header allocates
the one default cache object. -/
def initModule : ModuleState :=
  { heap := ⟨[DDGSearchCache.default]⟩, defaultCacheRef := 0 }

/-- The `cache` attribute of a constructed DDGSearch instance. -/
structure DDGSearchObj where
  cacheRef : Option Nat
  deriving Repr, DecidableEq

/-- `DDGSearch.__init__` restricted to the `cache` parameter: an explicit
argument (possibly `None`) is stored as given; omitting the argument
stores the shared module-level default object. -/
def mkDDGSearch (m : ModuleState) (explicitCache : Option (Option Nat)) : DDGSearchObj :=
  match explicitCache with
  | some c => { cacheRef := c }
  | none => { cacheRef := some m.defaultCacheRef }

/-- `instance.cache.add(url, contents)` through the heap. -/
def objCacheAdd (m : ModuleState) (o : DDGSearchObj) (now : Nat) (k v : String) :
    Except PyErr ModuleState :=
  match o.cacheRef with
  | none => .error (.typeError "NoneType object has no attribute add")
  | some ref =>
    match heapRead m.heap ref with
    | none => .error .indexError
    | some c =>
      match cacheAdd now k v c with
      | .error e => .error e
      | .ok c1 => .ok { m with heap := heapWrite m.heap ref c1 }

/-- Observing one instance through another: look a key up in the cache
object the instance references. -/
def objCacheLookup (m : ModuleState) (o : DDGSearchObj) (k : String) : Option String :=
  match o.cacheRef with
  | none => none
  | some ref =>
    match heapRead m.heap ref with
    | none => none
    | some c => dget c.data k

/-! ## Theorems -/

/-- C1.  The claim says a cache miss proceeds to network retrieval and on
success stores the cleaned result into the configured cache.  The code
does neither: `if self.cache:` is truthiness, so with a NON-EMPTY cache a
missing URL returns the empty-contents error string with zero GETs and no
store (first conjunct: one foreign entry in the cache, a transport that
would answer, yet the fetch branch is never entered), and with an EMPTY
configured cache the fetch does run but `if self.cache:
self.cache.add(...)` is falsy again, so the fetched result is returned
without ever being written to the cache (second conjunct: the returned
cache still has no entries).  Only the claimed hit behaviour holds. -/
theorem c1_cache_miss_neither_fetches_nor_stores :
    (getWebsiteContents 3 id 1
        (some { data := [("http://other", "x")], metadata := [("http://other", 0)],
                max_size := 50, max_age := -1, gc_timing := 10, num_of_calling := 0 })
        "http://u" (fun _ => .body "<p>hi</p>") =
      .ok { ret := emptyContentsErr "http://u" 3, attempts := 0, sleeps := 0,
            cache := some { data := [("http://other", "x")],
                            metadata := [("http://other", 0)], max_size := 50,
                            max_age := -1, gc_timing := 10, num_of_calling := 1 } }) ∧
    (getWebsiteContents 3 id 1 (some DDGSearchCache.default) "http://u"
        (fun _ => .body "<p>hi</p>") =
      .ok { ret := "<p>hi</p>", attempts := 1, sleeps := 0,
            cache := some DDGSearchCache.default }) :=
  ⟨rfl, rfl⟩

/-- C2.  The claim (and the docstring of `remove_expired`) says that after
an eviction pass no entry older than `max_age` remains.  The age loop
pops `metadata[-1]` - the NEWEST end of the ascending-sorted list - and
stops at the first fresh entry, so a stale oldest entry survives whenever
a fresher one exists: with `max_age = 10` at time 100 the entry created
at time 0 (age 100) is still present after the pass (first two
conjuncts).  The size phase does evict oldest-first down to `max_size`
(third conjunct). -/
theorem c2_stale_entry_survives_eviction_pass :
    (removeExpired 100
        { data := [("a", "va"), ("b", "vb")], metadata := [("a", 0), ("b", 100)],
          max_size := -1, max_age := 10, gc_timing := 10, num_of_calling := 0 } =
      .ok { data := [("a", "va"), ("b", "vb")], metadata := [("a", 0), ("b", 100)],
            max_size := -1, max_age := 10, gc_timing := 10, num_of_calling := 0 }) ∧
    ((100 : Int) - (0 : Int) > 10) ∧
    (removeExpired 5
        { data := [("a", "1"), ("b", "2"), ("c", "3")],
          metadata := [("a", 0), ("b", 1), ("c", 2)],
          max_size := 1, max_age := -1, gc_timing := 10, num_of_calling := 0 } =
      .ok { data := [("c", "3")], metadata := [("c", 2)],
            max_size := 1, max_age := -1, gc_timing := 10, num_of_calling := 0 }) :=
  ⟨rfl, by decide, rfl⟩

/-- C6.  `get` of a never-inserted key does return the default sentinel
(first conjunct), but the claim that no cache operation ever raises is
false: `remove` deletes the key from `data` while leaving its `metadata`
entry, so such an eviction pass later executes `del self.data[key]` on
the stale metadata key and raises `KeyError`.  Concretely, on a cache
with `max_size=-1, max_age=1000, gc_timing=2`: `add("a")` at time 0, then
`remove("a")` at time 2000 (the second call triggers the eviction pass,
whose age loop pops the stale `("a", 0)` metadata pair) raises
`KeyError("a")`. -/
theorem c6_remove_then_eviction_raises_keyerror :
    (cacheGet 5 "zzz" none DDGSearchCache.default =
      .ok (none, { DDGSearchCache.default with num_of_calling := 1 })) ∧
    (cacheAdd 0 "a" "v"
        { data := [], metadata := [], max_size := -1, max_age := 1000,
          gc_timing := 2, num_of_calling := 0 } =
      .ok { data := [("a", "v")], metadata := [("a", 0)], max_size := -1,
            max_age := 1000, gc_timing := 2, num_of_calling := 1 }) ∧
    ((cacheAdd 0 "a" "v"
        { data := [], metadata := [], max_size := -1, max_age := 1000,
          gc_timing := 2, num_of_calling := 0 }).bind (cacheRemove 2000 "a") =
      .error (.keyError "a")) :=
  ⟨rfl, rfl, rfl⟩

/-- C9.  The `cache` parameter default `DDGSearchCache()` is evaluated
once, when the `def` is executed, so every `DDGSearch()` constructed
without an explicit cache argument aliases the SAME cache object: both
default instances hold the module-level default reference, and an entry
added through the first instance is observable through the second,
contradicting the claimed isolation (the spec flags exactly this shared
mutable default as a defect to avoid). -/
theorem c9_default_instances_share_one_cache :
    ((mkDDGSearch initModule none).cacheRef = some initModule.defaultCacheRef) ∧
    ((mkDDGSearch initModule none).cacheRef = (mkDDGSearch initModule none).cacheRef) ∧
    ((objCacheAdd initModule (mkDDGSearch initModule none) 0 "http://u" "contents").map
        (fun m => objCacheLookup m (mkDDGSearch initModule none) "http://u") =
      .ok (some "contents")) :=
  ⟨rfl, rfl, rfl⟩

/-- The two retry loops are pointwise equal. -/
theorem fetchLoopSyncEqAsync (clean : String → String) (now : Nat) (url : String)
    (net : Nat → HttpOutcome) :
    ∀ (r : Nat) (st : FetchSt),
      fetchLoopSync clean now url net r st = fetchLoopAsync clean now url net r st := by
  intro r
  induction r with
  | zero => intro st; rfl
  | succ n ih =>
    intro st
    simp only [fetchLoopSync, fetchLoopAsync]
    cases hn : net st.att with
    | body html =>
      by_cases h : clean html = ""
      · simp only [h, if_pos rfl, ih]
      · simp only [if_neg h]
    | statusErr m => exact ih _
    | exc en em => rfl

/-- C7.  The synchronous `_get_website_contents` and the asynchronous
`_get_website_contents_async` are transcribed separately above; for every
URL, cache state, cleaning function and script of HTTP outcomes they
return the same value - the same contents or error string, the same
number of GET attempts and sleeps, and the same cache state. -/
theorem c7_fetcher_sync_async_equivalent (retries : Nat) (clean : String → String)
    (now : Nat) (cache : Option DDGSearchCache) (url : String) (net : Nat → HttpOutcome) :
    getWebsiteContents retries clean now cache url net =
      getWebsiteContentsAsync retries clean now cache url net := by
  have hfin : finalizeSync = finalizeAsync := by
    funext r u o
    cases o <;> rfl
  have hbr : fetchBranchSync = fetchBranchAsync := by
    funext r cl nw ca u ne
    unfold fetchBranchSync fetchBranchAsync
    rw [fetchLoopSyncEqAsync, hfin]
  unfold getWebsiteContents getWebsiteContentsAsync
  rw [hfin, hbr]

/-- Reading at the length of the left part of an append hits the cons head. -/
theorem getD_append_len (pre : List Rdict) (r : Rdict) (t : List Rdict) :
    (pre ++ r :: t).getD pre.length [] = r := by
  induction pre with
  | nil => rfl
  | cons a p ih => exact ih

/-- Setting at the length of the left part of an append replaces the cons head. -/
theorem set_append_len (pre : List Rdict) (r x : Rdict) (t : List Rdict) :
    (pre ++ r :: t).set pre.length x = pre ++ x :: t := by
  induction pre with
  | nil => rfl
  | cons a p ih => exact congrArg (List.cons a) ih

/-- Zipping a list with its own image and projecting collapses to one map. -/
theorem zip_map_self (f : String → String) :
    ∀ l : List (Nat × String),
      ((l.zip (l.map fun p => f p.2)).map fun q => (q.1.1, q.2)) =
        l.map fun p => (p.1, f p.2) := by
  intro l
  induction l with
  | nil => rfl
  | cons a t ih => simp only [List.map_cons, List.zip_cons_cons, ih]

/-- The sequence of in-place writes at the indices recorded by
`enumerate`-with-filter equals the positional map: each eligible slot
receives the fetch of its own `href`, every other slot is untouched, and
order and length are preserved. -/
theorem writeback_enumFrom (hasFilter : Bool) (fetch : String → String) :
    ∀ rs pre : List Rdict,
      writeback (pre ++ rs)
        (((enumFrom pre.length rs).filter fun p => eligibleResult hasFilter p.2).map
          fun p => (p.1, fetch ((dget p.2 "href").getD ""))) =
      pre ++ rs.map (fun r =>
        if eligibleResult hasFilter r then dset r "contents" (fetch ((dget r "href").getD ""))
        else r) := by
  intro rs
  induction rs with
  | nil =>
    intro pre
    simp [enumFrom, writeback]
  | cons r t ih =>
    intro pre
    simp only [enumFrom, List.filter_cons]
    by_cases h : eligibleResult hasFilter r = true
    · simp only [h, if_pos, List.map_cons, writeback]
      rw [getD_append_len, set_append_len]
      have hlist : pre ++ dset r "contents" (fetch ((dget r "href").getD "")) :: t =
          (pre ++ [dset r "contents" (fetch ((dget r "href").getD ""))]) ++ t := by
        simp
      have hlen : pre.length + 1 =
          (pre ++ [dset r "contents" (fetch ((dget r "href").getD ""))]).length := by
        simp
      rw [hlist, hlen, ih]
      simp [h]
    · rw [if_neg h]
      have hlist : pre ++ r :: t = (pre ++ [r]) ++ t := by simp
      have hlen : pre.length + 1 = (pre ++ [r]).length := by simp
      rw [hlist, hlen, ih]
      simp [h]

/-- C8.  The concurrent rejoin of `search_with_contents_async` (collect
`(index, url)` for eligible records, gather the fetches in task order,
write each result back at its recorded index) equals the sequential
positional map of `search_with_contents`: for every index, the slot ends
up holding its own record with `contents` set to the fetch outcome of
that record's `href` (eligible records) or stays untouched (others), and
the output order and length equal the post-filter input order and
length, independent of any completion order. -/
theorem c8_async_rejoin_is_positional (hasFilter : Bool) (fetch : String → String)
    (rs : List Rdict) :
    attachContentsAsync hasFilter fetch rs = attachContents hasFilter fetch rs := by
  unfold attachContentsAsync attachContents urlsOf
  rw [zip_map_self, List.map_map]
  have h := writeback_enumFrom hasFilter fetch rs []
  simpa [Function.comp] using h

/-- The provider loop on an all-empty script: every attempt assigns the
empty list and sleeps, and the loop ends by exhausting `range(retries)`. -/
theorem searchLoop_allEmpty (nr : Option Int) (script : Nat → ProviderOutcome) :
    ∀ (r i slp : Nat), 0 < r → (∀ t, t < r → script (i + t) = .res []) →
      searchLoop nr script r i [] slp =
        { early := none, results := [], attempts := i + r, sleeps := slp + r } := by
  intro r
  induction r with
  | zero => intro i slp h; omega
  | succ n ih =>
    intro i slp _ hall
    have h0 : script i = .res [] := by
      have := hall 0 (by omega)
      simpa using this
    simp only [searchLoop, h0, List.isEmpty_nil, if_pos]
    cases n with
    | zero => simp [searchLoop]
    | succ m =>
      have := ih (i + 1) (slp + 1) (by omega)
        (fun t ht => by
          have := hall (t + 1) (by omega)
          simpa [Nat.add_assoc, Nat.add_comm 1 t] using this)
      rw [this]
      congr 1 <;> omega

/-- The provider loop when the first `j` attempts return empty lists and
attempt `j` returns a non-empty list: the loop breaks at attempt `j` with
the (possibly truncated) list, having slept once per empty attempt. -/
theorem searchLoop_succeedsAt (nr : Option Int) (script : Nat → ProviderOutcome)
    (rs : List Rdict) (hrs : rs ≠ []) :
    ∀ (j r i : Nat) (cur : List Rdict) (slp : Nat),
      j < r → (∀ t, t < j → script (i + t) = .res []) →
      script (i + j) = .res rs →
      searchLoop nr script r i cur slp =
        { early := none, results := truncateResults nr rs,
          attempts := i + j + 1, sleeps := slp + j } := by
  intro j
  induction j with
  | zero =>
    intro r i cur slp hj _ hhit
    cases r with
    | zero => omega
    | succ n =>
      have h0 : script i = .res rs := by simpa using hhit
      have hne : rs.isEmpty = false := by
        cases rs with
        | nil => exact absurd rfl hrs
        | cons a t => rfl
      simp [searchLoop, h0, hne]
  | succ m ih =>
    intro r i cur slp hj hall hhit
    cases r with
    | zero => omega
    | succ n =>
      have h0 : script i = .res [] := by
        have := hall 0 (by omega)
        simpa using this
      simp only [searchLoop, h0, List.isEmpty_nil, if_pos]
      have := ih n (i + 1) [] (slp + 1) (by omega)
        (fun t ht => by
          have := hall (t + 1) (by omega)
          simpa [Nat.add_assoc, Nat.add_comm 1 t] using this)
        (by
          have : i + 1 + m = i + (m + 1) := by omega
          rw [this]
          exact hhit)
      rw [this]
      congr 1 <;> omega

/-- C3.  First conjunct: when every attempt within the budget yields an
empty result list, `search_with_contents` sleeps once per attempt,
performs exactly `retries` provider calls, and returns the single
descriptive error string naming the retry count - never an empty list.
Second conjunct: when the first `j` attempts (for any `j` within the
budget) yield empty lists and attempt `j` yields a non-empty list, that
list is returned (with contents attached to every record, there being no
filter or truncation configured), after `j + 1` provider calls and `j`
sleeps. -/
theorem c3_empty_results_retried_then_error (retries j : Nat)
    (fetch : String → String) (rs : List Rdict) (script : Nat → ProviderOutcome)
    (hall : ∀ t, t < retries → script t = .res [])
    (hj : j < retries) (hrs : rs ≠ []) :
    (searchWithContents retries none none fetch script =
      (.error (emptySearchErr retries), retries, retries)) ∧
    (searchWithContents retries none none fetch
        (fun i => if i < j then .res [] else .res rs) =
      (.ok (attachContents false fetch rs), j + 1, j)) := by
  constructor
  · unfold searchWithContents
    have hr : 0 < retries := by omega
    rw [searchLoop_allEmpty none script retries 0 0 hr (fun t ht => by simpa using hall t ht)]
    simp
  · unfold searchWithContents
    have hloop := searchLoop_succeedsAt none
        (fun i => if i < j then .res [] else .res rs) rs hrs j retries 0 [] 0 hj
        (fun t ht => by simp [ht])
        (by simp)
    rw [hloop]
    have hne : rs.isEmpty = false := by
      cases rs with
      | nil => exact absurd rfl hrs
      | cons a t => rfl
    simp [truncateResults, hne]

/-- Closed instance of the C3 theorem: two attempts, both empty, give the
error string; an empty first attempt followed by a non-empty second gives
the non-empty list with contents attached. -/
theorem c3_empty_results_retried_then_error_witness :
    (searchWithContents 2 none none (fun _ => "c") (fun _ => .res []) =
      (.error (emptySearchErr 2), 2, 2)) ∧
    (searchWithContents 2 none none (fun _ => "c")
        (fun i => if i < 1 then .res [] else .res [[("href", "http://u")]]) =
      (.ok (attachContents false (fun _ => "c") [[("href", "http://u")]]), 2, 1)) :=
  c3_empty_results_retried_then_error 2 1 (fun _ => "c") [[("href", "http://u")]]
    (fun _ => .res []) (fun _ _ => rfl) (by decide) (by decide)

/-- C10.  The truncation branch requires `self.num_results` to be truthy,
so `num_results = 0` never truncates: a full `search_with_contents` call
with `num_results=0` returns the whole provider list even when the
provider returns more than zero results (first conjunct, stated for an
arbitrary non-empty list), and the truncation step itself is the identity
at `num_results = 0` (second conjunct).  Truncation to the first
`num_results` entries happens exactly when `num_results >= 1` and the
provider over-returns (third conjunct), and not when the provider does
not over-return (fourth conjunct). -/
theorem c10_zero_num_results_never_truncates (retries : Nat) (rs : List Rdict)
    (fetch : String → String) (n : Int) (rsB rsC : List Rdict)
    (hre : 0 < retries) (hrs : rs ≠ []) (hn : 1 ≤ n)
    (hB : (rsB.length : Int) > n) (hC : (rsC.length : Int) ≤ n) :
    (searchWithContents retries (some 0) none fetch (fun _ => .res rs) =
      (.ok (attachContents false fetch rs), 1, 0)) ∧
    (truncateResults (some 0) rs = rs) ∧
    (truncateResults (some n) rsB = rsB.take n.toNat) ∧
    (truncateResults (some n) rsC = rsC) := by
  have hne : rs.isEmpty = false := by
    cases rs with
    | nil => exact absurd rfl hrs
    | cons a t => rfl
  refine ⟨?_, ?_, ?_, ?_⟩
  · unfold searchWithContents
    have hloop := searchLoop_succeedsAt (some 0) (fun _ => .res rs) rs hrs 0 retries 0 [] 0
      hre (fun t ht => by omega) rfl
    rw [hloop]
    simp [truncateResults, hne]
  · simp [truncateResults]
  · have hcond : (0 : Int) ≠ 0 ∨ True := by simp
    simp only [truncateResults]
    rw [if_pos ⟨by omega, hB⟩]
    unfold pySliceTo
    rw [if_pos (by omega)]
  · simp only [truncateResults]
    rw [if_neg (by omega)]

/-- Closed instance of the C10 theorem at `num_results = 0` with two
provider results and at `num_results = 1` with an over- and an
exactly-returning provider list. -/
theorem c10_zero_num_results_never_truncates_witness :
    (searchWithContents 3 (some 0) none (fun _ => "c")
        (fun _ => .res [[("href", "a")], [("href", "b")]]) =
      (.ok (attachContents false (fun _ => "c") [[("href", "a")], [("href", "b")]]), 1, 0)) ∧
    (truncateResults (some 0) [[("href", "a")], [("href", "b")]] =
      [[("href", "a")], [("href", "b")]]) ∧
    (truncateResults (some 1) [[("href", "a")], [("href", "b")]] =
      List.take (Int.toNat 1) [[("href", "a")], [("href", "b")]]) ∧
    (truncateResults (some 1) [[("href", "a")]] = [[("href", "a")]]) :=
  c10_zero_num_results_never_truncates 3 [[("href", "a")], [("href", "b")]] (fun _ => "c")
    1 [[("href", "a")], [("href", "b")]] [[("href", "a")]]
    (by decide) (by decide) (by decide) (by decide) (by decide)

/-- C4 counterexample.  The claim says a raising tool yields a payload
tagged with the tool name AND the exception class in both agents.  In
new_gemini_agent the payload interpolates only `{e}` - the message - so
for a registered tool "t" raising `ValueError("boom")` the payload is
`Error calling tool 't': boom`, which does not contain the class name
"ValueError" (first two conjuncts).  Moreover the claim that the
dispatcher never raises fails there too: `dict(function_call.args)` with
a `None` args field raises `TypeError` before the lookup (third
conjunct). -/
theorem c4_new_agent_payload_lacks_class_counterexample :
    (callToolFunctionNew [("t", .error { cls := "ValueError", msg := "boom" })]
        { name := some "t", args := some [] } =
      .ok { toolName := some "t", response := "Error calling tool 't': boom" }) ∧
    (strContainsSeg "ValueError" "Error calling tool 't': boom" = false) ∧
    (callToolFunctionNew [("t", .error { cls := "ValueError", msg := "boom" })]
        { name := some "x", args := none } =
      .error (.typeError "argument of type NoneType is not iterable")) :=
  ⟨rfl, rfl, rfl⟩

/-- C4 amended.  For every registry, unknown name, known raising tool and
present args: both dispatchers synthesize (without raising) an error
result naming an unknown tool; a raising tool is caught in both, and the
resulting payload carries the tool name together with the exception
class and message in gemini_agent's async dispatcher but only the tool
name and exception message in new_gemini_agent's dispatcher (whose
result is still a returned Part, not a raise, whenever the args field is
present). -/
theorem c4_tool_dispatch_amended (reg : ToolRegistry) (e : PyExc)
    (fname uname : String) (args : List (String × String))
    (hu : lookupTool reg uname = none)
    (hk : lookupTool reg fname = some (.error e)) :
    (callToolFunctionAsyncOld reg { name := some uname, args := some args } =
      { name := uname,
        response := [("error", "Error: Tool '" ++ uname ++ "' is not supported.")] }) ∧
    (callToolFunctionAsyncOld reg { name := some fname, args := some args } =
      { name := fname,
        response := [("error", "Error calling tool '" ++ fname ++ "' asynchronously: "
                        ++ e.cls ++ " " ++ e.msg)] }) ∧
    (callToolFunctionNew reg { name := some uname, args := some args } =
      .ok { toolName := some uname,
            response := "Error: Tool '" ++ uname ++ "' is not supported." }) ∧
    (callToolFunctionNew reg { name := some fname, args := some args } =
      .ok { toolName := some fname,
            response := "Error calling tool '" ++ fname ++ "': " ++ e.msg }) := by
  refine ⟨?_, ?_, ?_, ?_⟩
  · simp [callToolFunctionAsyncOld, hu]
  · simp [callToolFunctionAsyncOld, hk]
  · simp [callToolFunctionNew, hu]
  · simp [callToolFunctionNew, hk]

/-- Closed instance of the amended C4 theorem on a one-tool registry. -/
theorem c4_tool_dispatch_amended_witness :
    (callToolFunctionAsyncOld [("t", .error { cls := "ValueError", msg := "boom" })]
        { name := some "x", args := some [] } =
      { name := "x", response := [("error", "Error: Tool '" ++ "x" ++ "' is not supported.")] }) ∧
    (callToolFunctionAsyncOld [("t", .error { cls := "ValueError", msg := "boom" })]
        { name := some "t", args := some [] } =
      { name := "t",
        response := [("error", "Error calling tool '" ++ "t" ++ "' asynchronously: "
                        ++ "ValueError" ++ " " ++ "boom")] }) ∧
    (callToolFunctionNew [("t", .error { cls := "ValueError", msg := "boom" })]
        { name := some "x", args := some [] } =
      .ok { toolName := some "x", response := "Error: Tool '" ++ "x" ++ "' is not supported." }) ∧
    (callToolFunctionNew [("t", .error { cls := "ValueError", msg := "boom" })]
        { name := some "t", args := some [] } =
      .ok { toolName := some "t", response := "Error calling tool '" ++ "t" ++ "': " ++ "boom" }) :=
  c4_tool_dispatch_amended [("t", .error { cls := "ValueError", msg := "boom" })]
    { cls := "ValueError", msg := "boom" } "t" "x" [] rfl rfl

/-- C5 counterexample.  The claim says that when the configured delay is
not positive and the payload lacks a parsable retry-delay field, the
agent sleeps a hardcoded fallback.  In gemini_agent.ainvoke there is no
fallback: with `retry_delay = -1` (the constructor default) and an error
whose details carry no "retryDelay" entry, the sleep computation
`[...][0]` indexes an empty list and raises `IndexError`, which
propagates out of the except-handler instead of sleeping. -/
theorem c5_old_agent_sleep_raises_counterexample :
    computeSleepOld (-1) [] = .error .indexError :=
  rfl

/-- The rate-limit excursion of new_gemini_agent exhausts the budget:
with a positive budget `n` and every attempt rate-limited, the loop runs
`n + 1` attempts, sleeps the computed delay after each, and returns the
empty sentinel. -/
theorem invokeLoopNew_allRateLimited (n : Nat) (rd : Int) (es : String) :
    ∀ (f r : Nat) (slps : List Int), 0 < n → r ≤ n + 1 → n + 2 ≤ f + r →
      invokeLoopNew (n : Int) rd (fun _ => .rateLimited es) f r slps =
        some { text := "",
               sleeps := slps ++ List.replicate (n + 1 - r) (computeSleepNew rd es),
               attempts := n + 1 } := by
  intro f
  induction f with
  | zero => intro r slps hn h1 h2; omega
  | succ f ih =>
    intro r slps hn h1 h2
    simp only [invokeLoopNew]
    by_cases hb : (n : Int) > 0 ∧ (r : Int) > (n : Int)
    · have hr : r = n + 1 := by omega
      rw [if_pos hb]
      simp [hr]
    · rw [if_neg hb]
      have hrn : r ≤ n := by
        rcases Nat.lt_or_ge n r with h | h
        · exact absurd ⟨by exact_mod_cast hn, by exact_mod_cast h⟩ hb
        · omega
      rw [ih (r + 1) (slps ++ [computeSleepNew rd es]) hn (by omega) (by omega)]
      have e1 : n + 1 - (r + 1) = n - r := by omega
      have e2 : n + 1 - r = n - r + 1 := by omega
      rw [e1, e2, List.replicate_succ, List.append_assoc]
      rfl

/-- C5 amended.  In new_gemini_agent (invoke and ainvoke): on a
rate-limit error the sleep is the configured `retry_delay` when positive
(first conjunct), otherwise the value of the textual
`retry_delay { seconds: N }` pattern in the error string (third
conjunct: a payload embedding seconds 7 sleeps 7), otherwise the
hardcoded 2-second fallback (second conjunct); with a positive budget
`n` and every attempt rate-limited, the turn performs `n + 1` attempts,
sleeps the extracted delay after each, and then returns the empty
sentinel (fifth conjunct).  In gemini_agent.ainvoke only the
positive-`retry_delay` branch matches the claim (fourth conjunct); with
a non-positive delay the value is parsed from the "retryDelay" detail
fields and a payload without one raises IndexError instead of falling
back (see the counterexample). -/
theorem c5_rate_limit_sleep_amended (n fuel : Nat) (es s : String) (rdPos rdNon : Int)
    (hn : 0 < n) (hfuel : n + 2 ≤ fuel) (hpos : 0 < rdPos) (hnon : rdNon ≤ 0)
    (hs : searchRetryDelay s.data = none) :
    (computeSleepNew rdPos es = rdPos) ∧
    (extractRetryDelay s = 2) ∧
    (extractRetryDelay "error 429; retry_delay \x7b seconds: 7 \x7d; quota" = 7) ∧
    (computeSleepOld rdPos [] = .ok rdPos) ∧
    (invokeNew (n : Int) rdNon (fun _ => .rateLimited es) fuel =
      some { text := "",
             sleeps := List.replicate (n + 1) ((extractRetryDelay es : Int)),
             attempts := n + 1 }) := by
  refine ⟨?_, ?_, ?_, ?_, ?_⟩
  · simp [computeSleepNew, hpos]
  · simp [extractRetryDelay, hs]
  · rfl
  · simp [computeSleepOld, hpos]
  · unfold invokeNew
    rw [invokeLoopNew_allRateLimited n rdNon es fuel 0 [] hn (by omega) (by omega)]
    have hd : computeSleepNew rdNon es = (extractRetryDelay es : Int) := by
      simp [computeSleepNew]
      omega
    simp [hd]

/-- Closed instance of the amended C5 theorem: budget 1, configured delay
5 versus -1, the seconds-7 payload, and a payload with no match. -/
theorem c5_rate_limit_sleep_amended_witness :
    (computeSleepNew 5 "retry_delay \x7b seconds: 7 \x7d" = 5) ∧
    (extractRetryDelay "quota exceeded" = 2) ∧
    (extractRetryDelay "error 429; retry_delay \x7b seconds: 7 \x7d; quota" = 7) ∧
    (computeSleepOld 5 [] = .ok 5) ∧
    (invokeNew (1 : Int) (-1) (fun _ => .rateLimited "retry_delay \x7b seconds: 7 \x7d") 3 =
      some { text := "",
             sleeps := List.replicate 2 ((extractRetryDelay "retry_delay \x7b seconds: 7 \x7d" : Int)),
             attempts := 2 }) :=
  c5_rate_limit_sleep_amended 1 3 "retry_delay \x7b seconds: 7 \x7d" "quota exceeded"
    5 (-1) (by decide) (by decide) (by decide) (by decide) (by rfl)

end GSA
